import Mathlib

/-!
Verification of the walking-companion app's core logic: route segmentation
(`generateCheckpoints`), the haversine distance (`calculateDistance`), the
narration sequencer (`handleCheckpointReached` in `App.jsx`), the trip
tracker's distance accumulation and checkpoint-proximity detection
(`LeafletMapView.jsx`), and the deterministic fallback story generator
(`generateFallbackStory` in `gemini.js`).

Coordinates are modelled over `ℝ`; JS `Math` trigonometry is modelled by the
corresponding real functions, and `Math.atan2` by an explicit case split.
-/

open Real

namespace Wanderer

/-- A latitude/longitude pair as used throughout the app
(`{ lat, lng }` objects). -/
structure Coordinate where
  lat : ℝ
  lng : ℝ

/-- GeoJSON geometry of a route: `geometry.coordinates` is a list of
`[lng, lat]` pairs.  The field may be absent on a malformed route object,
which the planner guards against (`!route.geometry.coordinates`). -/
structure Geometry where
  coordinates : Option (List (ℝ × ℝ))

/-- The slice of a route object read by `generateCheckpoints`
(`src/utils/leafletMaps.js`): only `route.geometry` is consulted; the
`geometry` field may be absent (`!route.geometry`). -/
structure Route where
  geometry : Option Geometry

/-- A checkpoint produced by the planner:
`{ position: { lat, lng }, description: "Checkpoint i", index: i }`. -/
structure Checkpoint where
  position : Coordinate
  description : String
  index : ℕ

/-- `generateCheckpoints(route, numCheckpoints = 4)` from
`src/utils/leafletMaps.js` (lines 87-110): returns `[]` when `route.geometry`
or `route.geometry.coordinates` is missing; otherwise for `i` in
`1..numCheckpoints` it pushes a checkpoint at
`coordinates[i * floor(totalPoints / (numCheckpoints + 1))]` whenever that
point index is in bounds. -/
def generateCheckpoints (route : Route) (numCheckpoints : ℕ := 4) :
    List Checkpoint :=
  match route.geometry with
  | none => []
  | some g =>
    match g.coordinates with
    | none => []
    | some coordinates =>
      let totalPoints := coordinates.length
      let interval := totalPoints / (numCheckpoints + 1)
      (List.range' 1 numCheckpoints).filterMap fun i =>
        let pointIndex := i * interval
        if h : pointIndex < totalPoints then
          some { position := { lat := (coordinates.get ⟨pointIndex, h⟩).2,
                               lng := (coordinates.get ⟨pointIndex, h⟩).1 },
                 description := "Checkpoint " ++ toString i,
                 index := i }
        else none

/-- JavaScript `Math.atan2(y, x)` on real inputs (signed zeros ignored, as
both of this file's call sites pass nonnegative arguments). -/
noncomputable def atan2 (y x : ℝ) : ℝ :=
  if 0 < x then Real.arctan (y / x)
  else if x < 0 then
    (if 0 ≤ y then Real.arctan (y / x) + π else Real.arctan (y / x) - π)
  else
    (if 0 < y then π / 2 else if y < 0 then -(π / 2) else 0)

/-- `calculateDistance(lat1, lon1, lat2, lon2)` from
`src/utils/leafletMaps.js` (lines 113-126): haversine great-circle distance
in metres with Earth radius `R = 6371e3`. -/
noncomputable def calculateDistance (lat1 lon1 lat2 lon2 : ℝ) : ℝ :=
  6371000 *
    (2 * atan2
      (Real.sqrt
        (Real.sin ((lat2 - lat1) * π / 180 / 2) *
            Real.sin ((lat2 - lat1) * π / 180 / 2) +
          Real.cos (lat1 * π / 180) * Real.cos (lat2 * π / 180) *
            Real.sin ((lon2 - lon1) * π / 180 / 2) *
            Real.sin ((lon2 - lon1) * π / 180 / 2)))
      (Real.sqrt
        (1 -
          (Real.sin ((lat2 - lat1) * π / 180 / 2) *
              Real.sin ((lat2 - lat1) * π / 180 / 2) +
            Real.cos (lat1 * π / 180) * Real.cos (lat2 * π / 180) *
              Real.sin ((lon2 - lon1) * π / 180 / 2) *
              Real.sin ((lon2 - lon1) * π / 180 / 2)))))

/-- A story chapter as produced by `src/utils/gemini.js`. -/
structure Chapter where
  chapterNumber : ℕ
  title : String
  content : String
  estimatedReadingTime : ℕ

/-- A story: `{ title, chapters }`. -/
structure Story where
  title : String
  chapters : List Chapter

/-- `generateFallbackStory(origin, destination, checkpoints)` from
`src/utils/gemini.js` (lines 131-156): builds
`locations = [origin, ...checkpoint descriptions, destination]` and pushes
one chapter per `index < locations.length - 1`. -/
def generateFallbackStory (origin destination : String)
    (checkpoints : List Checkpoint) : Story :=
  let locations := [origin] ++ checkpoints.map (·.description) ++ [destination]
  let chapters := (List.range locations.length).filterMap fun index =>
    if index < locations.length - 1 then
      some { chapterNumber := index + 1,
             title := "Chapter " ++ toString (index + 1) ++ ": Journey to " ++
               locations.getD (index + 1) "",
             content := "As you walk towards " ++ locations.getD (index + 1) ""
               ++ ", take in the surroundings around " ++
               locations.getD index "" ++
               ". Notice the architecture, the people, the sounds, and the atmosphere. Every step brings you closer to your destination, and every moment offers something new to discover. What stories do these streets hold? What lives have passed through here before you?",
             estimatedReadingTime := 3 }
    else none
  { title := "Your Walking Journey", chapters := chapters }

/-- The sequencer state held by `App.jsx`: `completedCheckpoints` and
`currentChapter`. -/
structure AppState where
  completedCheckpoints : List ℕ
  currentChapter : ℕ
  deriving DecidableEq

/-- `handleCheckpointReached(checkpointIndex)` from `src/App.jsx`
(lines 44-54): if the index is not yet completed, append it and move to
chapter `checkpointIndex + 1` when that chapter exists
(`story?.chapters && nextChapter < story.chapters.length`). -/
def handleCheckpointReached (story : Option Story) (s : AppState)
    (checkpointIndex : ℕ) : AppState :=
  if checkpointIndex ∈ s.completedCheckpoints then s
  else
    { completedCheckpoints := s.completedCheckpoints ++ [checkpointIndex],
      currentChapter :=
        match story with
        | some st =>
          if checkpointIndex + 1 < st.chapters.length then checkpointIndex + 1
          else s.currentChapter
        | none => s.currentChapter }

open Classical in
/-- The checkpoint-proximity pass of `LeafletMapView.jsx` (lines 186-200):
`checkpoints.forEach((checkpoint, index) => ...)` emits a checkpoint-reached
event for every 0-based `index` not yet in `completedCheckpoints` whose
position is within 50 metres of the current position.  The returned list is
the sequence of emitted indices, in order. -/
noncomputable def checkpointEventsFrom (pos : Coordinate) :
    List Checkpoint → ℕ → List ℕ → List ℕ
  | [], _, _ => []
  | checkpoint :: rest, index, completed =>
    if index ∈ completed then checkpointEventsFrom pos rest (index + 1) completed
    else if calculateDistance pos.lat pos.lng checkpoint.position.lat
        checkpoint.position.lng ≤ 50 then
      index :: checkpointEventsFrom pos rest (index + 1) completed
    else checkpointEventsFrom pos rest (index + 1) completed

/-- Events emitted by one proximity pass over the whole checkpoint list. -/
noncomputable def checkpointEvents (pos : Coordinate)
    (checkpoints : List Checkpoint) (completed : List ℕ) : List ℕ :=
  checkpointEventsFrom pos checkpoints 0 completed

/-- The distance-accumulation loop of the `watchPosition` callback in
`LeafletMapView.jsx` (lines 107-117): starting from `lastPositionRef` and the
running total (in kilometres), each sample adds
`calculateDistance(last, new) / 1000` and becomes the new last position. -/
noncomputable def accumulateDistance :
    Option Coordinate → ℝ → List Coordinate → ℝ
  | _, total, [] => total
  | none, total, p :: rest => accumulateDistance (some p) total rest
  | some q, total, p :: rest =>
    accumulateDistance (some p)
      (total + calculateDistance q.lat q.lng p.lat p.lng / 1000) rest

/-- `totalDistance` (kilometres) after feeding a list of accepted position
samples to a freshly mounted tracker (`lastPositionRef = null`,
`totalDistance = 0`). -/
noncomputable def totalDistanceAfter (samples : List Coordinate) : ℝ :=
  accumulateDistance none 0 samples

/-- Sum (in metres) of the haversine distances between consecutive samples. -/
noncomputable def pairwiseHaversineSum : List Coordinate → ℝ
  | [] => 0
  | [_] => 0
  | p :: q :: rest =>
    calculateDistance p.lat p.lng q.lat q.lng + pairwiseHaversineSum (q :: rest)

/-- The tracker state of `LeafletMapView.jsx` together with the sequencer
fields lifted from `App.jsx`: trip start time, last position, accumulated
distance (km), completed checkpoint indices, current chapter, and the
geolocation watch subscription handle. -/
structure TrackerState where
  tripStartTime : Option ℕ
  lastPosition : Option Coordinate
  totalDistance : ℝ
  completedCheckpoints : List ℕ
  currentChapter : ℕ
  watchId : Option ℕ

/-- An event delivered by the geolocation position stream: either a position
sample or an error. -/
inductive GeoEvent where
  | posSample (p : Coordinate)
  | geoError (msg : String)

/-- One step of the tracking loop.  A position sample runs the
`watchPosition` success callback (distance accumulation, last-position
update) followed by the proximity pass and the sequencer advancement it
triggers.  A stream error runs the error callback (lines 120-123 of
`LeafletMapView.jsx`), which only reports
`Location tracking error: ...` via `onError`; the second component collects
the surfaced error messages. -/
noncomputable def handleGeoEvent (story : Option Story)
    (checkpoints : List Checkpoint) (s : TrackerState) :
    GeoEvent → TrackerState × List String
  | .posSample p =>
    let total :=
      match s.lastPosition with
      | some q => s.totalDistance + calculateDistance q.lat q.lng p.lat p.lng / 1000
      | none => s.totalDistance
    let events := checkpointEvents p checkpoints s.completedCheckpoints
    let app := events.foldl (handleCheckpointReached story)
      ⟨s.completedCheckpoints, s.currentChapter⟩
    ({ s with totalDistance := total, lastPosition := some p,
              completedCheckpoints := app.completedCheckpoints,
              currentChapter := app.currentChapter }, [])
  | .geoError msg => (s, ["Location tracking error: " ++ msg])

/-! ## The end-to-end scenario of §8 of the specification

A 20-point geometry evenly spaced from `(10.776, 106.700)` to
`(10.780, 106.705)`, `n = 4`. -/

/-- Point `k` of the scenario geometry, as a GeoJSON `(lng, lat)` pair. -/
noncomputable def scenarioPoint (k : ℕ) : ℝ × ℝ :=
  (106.700 + (k : ℝ) * (0.005 / 19), 10.776 + (k : ℝ) * (0.004 / 19))

/-- The scenario geometry: 20 evenly spaced points. -/
noncomputable def scenarioCoords : List (ℝ × ℝ) :=
  (List.range 20).map scenarioPoint

/-- The scenario route object. -/
noncomputable def scenarioRoute : Route :=
  { geometry := some { coordinates := some scenarioCoords } }

/-- The scenario checkpoints: `generateCheckpoints` with `n = 4`. -/
noncomputable def scenarioCheckpoints : List Checkpoint :=
  generateCheckpoints scenarioRoute 4

/-- The fallback story bound to the scenario checkpoints (5 chapters). -/
noncomputable def scenarioStory : Story :=
  generateFallbackStory "origin" "destination" scenarioCheckpoints

/-- A position sample at point index 8 of the scenario geometry (hence within
50 m of that point's coordinate). -/
noncomputable def scenarioPos : Coordinate :=
  { lat := (scenarioPoint 8).2, lng := (scenarioPoint 8).1 }

/-! ## Planner lemmas -/

lemma filterMap_eq_map_of_forall_some {α β : Type} (f : α → Option β)
    (g : α → β) (l : List α) (h : ∀ x ∈ l, f x = some (g x)) :
    l.filterMap f = l.map g := by
  induction l with
  | nil => rfl
  | cons a l ih =>
    rw [List.filterMap_cons, List.map_cons, h a (by simp),
      ih fun x hx => h x (by simp [hx])]

/-- When every requested point index is in bounds, the planner's loop never
skips, so it is a plain map over `i = 1..n`. -/
lemma generateCheckpoints_eq_map (coords : List (ℝ × ℝ)) (n : ℕ)
    (hin : ∀ i, 1 ≤ i → i ≤ n →
      i * (coords.length / (n + 1)) < coords.length) :
    generateCheckpoints ⟨some ⟨some coords⟩⟩ n =
      (List.range' 1 n).map fun i =>
        { position :=
            { lat := (coords.getD (i * (coords.length / (n + 1))) (0, 0)).2,
              lng := (coords.getD (i * (coords.length / (n + 1))) (0, 0)).1 },
          description := "Checkpoint " ++ toString i,
          index := i } := by
  unfold generateCheckpoints
  refine filterMap_eq_map_of_forall_some _ _ _ fun i hi => ?_
  have hmem : 1 ≤ i ∧ i < 1 + n := by
    have := hi
    rw [List.mem_range'_1] at this
    exact this
  have hlt : i * (coords.length / (n + 1)) < coords.length :=
    hin i hmem.1 (by omega)
  rw [dif_pos hlt]
  congr 1
  simp [List.getD_eq_getElem, hlt]

/-- C1: whenever every requested point index `i * floor(totalPoints/(n+1))`
(for `i` in `1..n`) is below `totalPoints`, `generateCheckpoints` returns
exactly `n` checkpoints, their `index` fields are strictly increasing
`1..n`, and checkpoint `i`'s position is
`geometry.coordinates[i * floor(totalPoints/(n+1))]`. -/
theorem planner_even_spacing (coords : List (ℝ × ℝ)) (n : ℕ)
    (hin : ∀ i, 1 ≤ i → i ≤ n →
      i * (coords.length / (n + 1)) < coords.length) :
    (generateCheckpoints ⟨some ⟨some coords⟩⟩ n).length = n ∧
    (generateCheckpoints ⟨some ⟨some coords⟩⟩ n).map Checkpoint.index =
      List.range' 1 n ∧
    ∀ k, (hk : k < (generateCheckpoints ⟨some ⟨some coords⟩⟩ n).length) →
      ((generateCheckpoints ⟨some ⟨some coords⟩⟩ n).get ⟨k, hk⟩).index = k + 1 ∧
      ((generateCheckpoints ⟨some ⟨some coords⟩⟩ n).get ⟨k, hk⟩).position.lat =
        (coords.getD ((k + 1) * (coords.length / (n + 1))) (0, 0)).2 ∧
      ((generateCheckpoints ⟨some ⟨some coords⟩⟩ n).get ⟨k, hk⟩).position.lng =
        (coords.getD ((k + 1) * (coords.length / (n + 1))) (0, 0)).1 := by
  rw [generateCheckpoints_eq_map coords n hin]
  refine ⟨by simp, by rw [List.map_map]; exact List.map_id _, ?_⟩
  intro k hk
  have hk' : k < n := by simpa using hk
  simp [List.get_eq_getElem, List.getElem_map, List.getElem_range', Nat.add_comm 1 k]

/-- C1 witness: a 10-point geometry with `n = 4` (interval 2, checkpoints at
points 2, 4, 6, 8). -/
theorem planner_even_spacing_witness :
    (∀ i, 1 ≤ i → i ≤ 4 →
      i * (([((0 : ℝ), (0 : ℝ)), (1, 0), (2, 0), (3, 0), (4, 0), (5, 0),
        (6, 0), (7, 0), (8, 0), (9, 0)].length) / (4 + 1)) <
        [((0 : ℝ), (0 : ℝ)), (1, 0), (2, 0), (3, 0), (4, 0), (5, 0),
        (6, 0), (7, 0), (8, 0), (9, 0)].length) ∧
    ((generateCheckpoints ⟨some ⟨some [((0 : ℝ), (0 : ℝ)), (1, 0), (2, 0),
        (3, 0), (4, 0), (5, 0), (6, 0), (7, 0), (8, 0), (9, 0)]⟩⟩ 4).length = 4 ∧
      (generateCheckpoints ⟨some ⟨some [((0 : ℝ), (0 : ℝ)), (1, 0), (2, 0),
        (3, 0), (4, 0), (5, 0), (6, 0), (7, 0), (8, 0), (9, 0)]⟩⟩ 4).map
        Checkpoint.index = List.range' 1 4 ∧
      ∀ k, (hk : k < (generateCheckpoints ⟨some ⟨some [((0 : ℝ), (0 : ℝ)),
          (1, 0), (2, 0), (3, 0), (4, 0), (5, 0), (6, 0), (7, 0), (8, 0),
          (9, 0)]⟩⟩ 4).length) →
        ((generateCheckpoints ⟨some ⟨some [((0 : ℝ), (0 : ℝ)), (1, 0), (2, 0),
          (3, 0), (4, 0), (5, 0), (6, 0), (7, 0), (8, 0), (9, 0)]⟩⟩ 4).get
          ⟨k, hk⟩).index = k + 1 ∧
        ((generateCheckpoints ⟨some ⟨some [((0 : ℝ), (0 : ℝ)), (1, 0), (2, 0),
          (3, 0), (4, 0), (5, 0), (6, 0), (7, 0), (8, 0), (9, 0)]⟩⟩ 4).get
          ⟨k, hk⟩).position.lat =
          ([((0 : ℝ), (0 : ℝ)), (1, 0), (2, 0), (3, 0), (4, 0), (5, 0), (6, 0),
            (7, 0), (8, 0), (9, 0)].getD ((k + 1) *
            ([((0 : ℝ), (0 : ℝ)), (1, 0), (2, 0), (3, 0), (4, 0), (5, 0),
              (6, 0), (7, 0), (8, 0), (9, 0)].length / (4 + 1))) (0, 0)).2 ∧
        ((generateCheckpoints ⟨some ⟨some [((0 : ℝ), (0 : ℝ)), (1, 0), (2, 0),
          (3, 0), (4, 0), (5, 0), (6, 0), (7, 0), (8, 0), (9, 0)]⟩⟩ 4).get
          ⟨k, hk⟩).position.lng =
          ([((0 : ℝ), (0 : ℝ)), (1, 0), (2, 0), (3, 0), (4, 0), (5, 0), (6, 0),
            (7, 0), (8, 0), (9, 0)].getD ((k + 1) *
            ([((0 : ℝ), (0 : ℝ)), (1, 0), (2, 0), (3, 0), (4, 0), (5, 0),
              (6, 0), (7, 0), (8, 0), (9, 0)].length / (4 + 1))) (0, 0)).1) :=
  ⟨by intro i h1 h2; simp only [List.length_cons, List.length_nil]; omega,
   planner_even_spacing _ 4
     (by intro i h1 h2; simp only [List.length_cons, List.length_nil]; omega)⟩

/-- C2 counterexample: for a 3-point geometry and `n = 4` the planner does
NOT return fewer than 4 checkpoints — `interval = 0`, every `pointIndex` is
`0 < 3`, and exactly 4 (degenerate) checkpoints are returned. -/
theorem planner_three_points_cex :
    ¬ ((generateCheckpoints
        ⟨some ⟨some [((0 : ℝ), (0 : ℝ)), (1, 1), (2, 2)]⟩⟩ 4).length < 4) := by
  have h4 : (generateCheckpoints
      ⟨some ⟨some [((0 : ℝ), (0 : ℝ)), (1, 1), (2, 2)]⟩⟩ 4).length = 4 := by
    rw [generateCheckpoints_eq_map _ 4
      (by intro i h1 h2; simp only [List.length_cons, List.length_nil]; omega)]
    simp
  omega

/-- C2 (amended): for a 3-point geometry and `n = 4` the planner throws no
exception and returns exactly 4 checkpoints, all degenerate at
`coordinates[0]`, with indices `1..4`. -/
theorem planner_three_points (coords : List (ℝ × ℝ))
    (h3 : coords.length = 3) :
    (generateCheckpoints ⟨some ⟨some coords⟩⟩ 4).length = 4 ∧
    (generateCheckpoints ⟨some ⟨some coords⟩⟩ 4).map Checkpoint.index =
      [1, 2, 3, 4] ∧
    ∀ c ∈ generateCheckpoints ⟨some ⟨some coords⟩⟩ 4,
      c.position.lat = (coords.getD 0 (0, 0)).2 ∧
      c.position.lng = (coords.getD 0 (0, 0)).1 := by
  have hmap := generateCheckpoints_eq_map coords 4
    (by intro i h1 h2; rw [h3]; omega)
  rw [h3] at hmap
  simp only [show (3 : ℕ) / (4 + 1) = 0 from rfl, Nat.mul_zero] at hmap
  refine ⟨?_, ?_, ?_⟩
  · rw [hmap]; simp
  · rw [hmap, List.map_map]; rfl
  · rw [hmap]
    intro c hc
    simp only [List.mem_map] at hc
    obtain ⟨i, -, rfl⟩ := hc
    exact ⟨rfl, rfl⟩

/-- C2 witness: the concrete 3-point geometry. -/
theorem planner_three_points_witness :
    ([((0 : ℝ), (0 : ℝ)), (1, 1), (2, 2)].length = 3) ∧
    ((generateCheckpoints
        ⟨some ⟨some [((0 : ℝ), (0 : ℝ)), (1, 1), (2, 2)]⟩⟩ 4).length = 4 ∧
      (generateCheckpoints
        ⟨some ⟨some [((0 : ℝ), (0 : ℝ)), (1, 1), (2, 2)]⟩⟩ 4).map
        Checkpoint.index = [1, 2, 3, 4] ∧
      ∀ c ∈ generateCheckpoints
          ⟨some ⟨some [((0 : ℝ), (0 : ℝ)), (1, 1), (2, 2)]⟩⟩ 4,
        c.position.lat =
          ([((0 : ℝ), (0 : ℝ)), (1, 1), (2, 2)].getD 0 (0, 0)).2 ∧
        c.position.lng =
          ([((0 : ℝ), (0 : ℝ)), (1, 1), (2, 2)].getD 0 (0, 0)).1) :=
  ⟨rfl, planner_three_points _ rfl⟩

/-- C10: a route whose `geometry` or `geometry.coordinates` field is absent
yields the empty checkpoint list, for every requested count. -/
theorem planner_missing_geometry (n : ℕ) :
    generateCheckpoints { geometry := none } n = [] ∧
    generateCheckpoints { geometry := some { coordinates := none } } n = [] :=
  ⟨rfl, rfl⟩

/-! ## Sequencer lemmas -/

/-- C3: reaching a not-yet-completed checkpoint adds it to the completed set
and jumps the current chapter to `index + 1` when that chapter exists; the
sequencer does not clamp, so a smaller not-yet-completed index reported
after a larger one moves the active chapter backward. -/
theorem sequencer_advance (st : Story) (s : AppState) (i : ℕ)
    (hi : i ∉ s.completedCheckpoints) :
    (handleCheckpointReached (some st) s i).completedCheckpoints =
      s.completedCheckpoints ++ [i] ∧
    (i + 1 < st.chapters.length →
      (handleCheckpointReached (some st) s i).currentChapter = i + 1) ∧
    (∀ j, j < i → j ∉ s.completedCheckpoints → i + 1 < st.chapters.length →
      (handleCheckpointReached (some st)
        (handleCheckpointReached (some st) s i) j).currentChapter = j + 1 ∧
      (handleCheckpointReached (some st)
          (handleCheckpointReached (some st) s i) j).currentChapter <
        (handleCheckpointReached (some st) s i).currentChapter) := by
  refine ⟨?_, ?_, ?_⟩
  · simp [handleCheckpointReached, hi]
  · intro hlt
    simp [handleCheckpointReached, hi, hlt]
  · intro j hj hjc hlt
    have hj' : j ∉ s.completedCheckpoints ++ [i] := by
      simp only [List.mem_append, List.mem_singleton]
      rintro (h | rfl)
      · exact hjc h
      · omega
    have hjlt : j + 1 < st.chapters.length := by omega
    constructor
    · simp [handleCheckpointReached, hi, hj', hjlt]
    · simp [handleCheckpointReached, hi, hj', hjlt, hlt]
      omega

/-- C3 witness: fresh state, 4 chapters, checkpoint 2 then checkpoint 1. -/
theorem sequencer_advance_witness :
    ((2 : ℕ) ∉ (AppState.mk [] 0).completedCheckpoints) ∧
    ((handleCheckpointReached (some (Story.mk "s"
        [⟨1, "a", "x", 3⟩, ⟨2, "b", "y", 3⟩, ⟨3, "c", "z", 3⟩, ⟨4, "d", "w", 3⟩]))
        (AppState.mk [] 0) 2).completedCheckpoints = [] ++ [2] ∧
      (2 + 1 < (Story.mk "s" [⟨1, "a", "x", 3⟩, ⟨2, "b", "y", 3⟩,
          ⟨3, "c", "z", 3⟩, ⟨4, "d", "w", 3⟩] : Story).chapters.length →
        (handleCheckpointReached (some (Story.mk "s"
          [⟨1, "a", "x", 3⟩, ⟨2, "b", "y", 3⟩, ⟨3, "c", "z", 3⟩, ⟨4, "d", "w", 3⟩]))
          (AppState.mk [] 0) 2).currentChapter = 2 + 1) ∧
      (∀ j, j < 2 → j ∉ (AppState.mk [] 0).completedCheckpoints →
        2 + 1 < (Story.mk "s" [⟨1, "a", "x", 3⟩, ⟨2, "b", "y", 3⟩,
          ⟨3, "c", "z", 3⟩, ⟨4, "d", "w", 3⟩] : Story).chapters.length →
        (handleCheckpointReached (some (Story.mk "s"
            [⟨1, "a", "x", 3⟩, ⟨2, "b", "y", 3⟩, ⟨3, "c", "z", 3⟩, ⟨4, "d", "w", 3⟩]))
          (handleCheckpointReached (some (Story.mk "s"
            [⟨1, "a", "x", 3⟩, ⟨2, "b", "y", 3⟩, ⟨3, "c", "z", 3⟩, ⟨4, "d", "w", 3⟩]))
            (AppState.mk [] 0) 2) j).currentChapter = j + 1 ∧
        (handleCheckpointReached (some (Story.mk "s"
            [⟨1, "a", "x", 3⟩, ⟨2, "b", "y", 3⟩, ⟨3, "c", "z", 3⟩, ⟨4, "d", "w", 3⟩]))
          (handleCheckpointReached (some (Story.mk "s"
            [⟨1, "a", "x", 3⟩, ⟨2, "b", "y", 3⟩, ⟨3, "c", "z", 3⟩, ⟨4, "d", "w", 3⟩]))
            (AppState.mk [] 0) 2) j).currentChapter <
          (handleCheckpointReached (some (Story.mk "s"
            [⟨1, "a", "x", 3⟩, ⟨2, "b", "y", 3⟩, ⟨3, "c", "z", 3⟩, ⟨4, "d", "w", 3⟩]))
            (AppState.mk [] 0) 2).currentChapter)) :=
  ⟨by decide, sequencer_advance _ _ 2 (by decide)⟩

/-- C4: reporting the same checkpoint index twice is a no-op — the completed
set and the current chapter match a single call. -/
theorem sequencer_idempotent (story : Option Story) (s : AppState) (i : ℕ) :
    handleCheckpointReached story (handleCheckpointReached story s i) i =
      handleCheckpointReached story s i := by
  by_cases h : i ∈ s.completedCheckpoints
  · simp [handleCheckpointReached, h]
  · simp [handleCheckpointReached, h]

/-! ## Fallback story -/

lemma length_filterMap_range_if {α : Type} (n m : ℕ) (g : ℕ → α) :
    ((List.range n).filterMap fun i =>
      if i < m then some (g i) else none).length = min m n := by
  induction n with
  | zero => simp
  | succ n ih =>
    rw [List.range_succ, List.filterMap_append, List.length_append, ih]
    by_cases h : n < m
    · simp only [List.filterMap_cons, List.filterMap_nil, if_pos h]
      simp only [List.length_cons, List.length_nil]
      omega
    · simp only [List.filterMap_cons, List.filterMap_nil, if_neg h]
      simp only [List.length_nil]
      omega

/-- C7: the deterministic fallback story has exactly
`checkpoints.length + 1` chapters. -/
theorem fallbackStory_chapter_count (origin destination : String)
    (checkpoints : List Checkpoint) :
    (generateFallbackStory origin destination checkpoints).chapters.length =
      checkpoints.length + 1 := by
  unfold generateFallbackStory
  simp only
  rw [length_filterMap_range_if]
  simp only [List.length_append, List.length_map, List.length_cons,
    List.length_nil]
  omega

/-! ## Tracker error handling -/

/-- C9: a geolocation stream error during tracking surfaces the error
message to the caller and leaves the whole tracker state — trip start time,
last position, traveled distance, completed checkpoints, current chapter,
and the watch subscription — unchanged; no resubscription happens. -/
theorem tracker_error_preserves_state (story : Option Story)
    (checkpoints : List Checkpoint) (s : TrackerState) (msg : String) :
    handleGeoEvent story checkpoints s (.geoError msg) =
      (s, ["Location tracking error: " ++ msg]) := rfl

/-! ## Haversine lemmas -/

lemma atan2_nonneg {y x : ℝ} (hy : 0 ≤ y) (hx : 0 ≤ x) : 0 ≤ atan2 y x := by
  unfold atan2
  split_ifs with h1 h2 h3 h4 <;>
    first
      | exact le_trans (le_of_eq Real.arctan_zero.symm)
          (Real.arctan_strictMono.monotone (div_nonneg hy (le_of_lt h1)))
      | linarith [Real.pi_pos]

lemma calculateDistance_nonneg (lat1 lon1 lat2 lon2 : ℝ) :
    0 ≤ calculateDistance lat1 lon1 lat2 lon2 := by
  unfold calculateDistance
  have h := atan2_nonneg (y := Real.sqrt
      (Real.sin ((lat2 - lat1) * π / 180 / 2) *
          Real.sin ((lat2 - lat1) * π / 180 / 2) +
        Real.cos (lat1 * π / 180) * Real.cos (lat2 * π / 180) *
          Real.sin ((lon2 - lon1) * π / 180 / 2) *
          Real.sin ((lon2 - lon1) * π / 180 / 2)))
    (x := Real.sqrt
      (1 -
        (Real.sin ((lat2 - lat1) * π / 180 / 2) *
            Real.sin ((lat2 - lat1) * π / 180 / 2) +
          Real.cos (lat1 * π / 180) * Real.cos (lat2 * π / 180) *
            Real.sin ((lon2 - lon1) * π / 180 / 2) *
            Real.sin ((lon2 - lon1) * π / 180 / 2))))
    (Real.sqrt_nonneg _) (Real.sqrt_nonneg _)
  linarith

lemma calculateDistance_self (lat lon : ℝ) :
    calculateDistance lat lon lat lon = 0 := by
  unfold calculateDistance
  rw [show (lat - lat) * π / 180 / 2 = 0 by ring,
    show (lon - lon) * π / 180 / 2 = 0 by ring, Real.sin_zero]
  norm_num [atan2]

lemma calculateDistance_symm (lat1 lon1 lat2 lon2 : ℝ) :
    calculateDistance lat1 lon1 lat2 lon2 =
      calculateDistance lat2 lon2 lat1 lon1 := by
  have hA :
      Real.sin ((lat1 - lat2) * π / 180 / 2) *
          Real.sin ((lat1 - lat2) * π / 180 / 2) +
        Real.cos (lat2 * π / 180) * Real.cos (lat1 * π / 180) *
          Real.sin ((lon1 - lon2) * π / 180 / 2) *
          Real.sin ((lon1 - lon2) * π / 180 / 2) =
      Real.sin ((lat2 - lat1) * π / 180 / 2) *
          Real.sin ((lat2 - lat1) * π / 180 / 2) +
        Real.cos (lat1 * π / 180) * Real.cos (lat2 * π / 180) *
          Real.sin ((lon2 - lon1) * π / 180 / 2) *
          Real.sin ((lon2 - lon1) * π / 180 / 2) := by
    rw [show (lat1 - lat2) * π / 180 / 2 = -((lat2 - lat1) * π / 180 / 2) by
        ring,
      show (lon1 - lon2) * π / 180 / 2 = -((lon2 - lon1) * π / 180 / 2) by
        ring,
      Real.sin_neg, Real.sin_neg]
    ring
  unfold calculateDistance
  rw [hA]

/-- C5 counterexample: at the north pole the haversine value is 0 for two
DIFFERENT coordinates (`(90, 0)` vs `(90, 90)`), refuting "zero only if
`a == b`". -/
theorem distance_zero_for_distinct_points :
    calculateDistance 90 0 90 90 = 0 ∧
      (Coordinate.mk 90 0 ≠ Coordinate.mk 90 90) := by
  constructor
  · unfold calculateDistance
    rw [show ((90 : ℝ) - 90) * π / 180 / 2 = 0 by ring, Real.sin_zero,
      show (90 : ℝ) * π / 180 = π / 2 by ring, Real.cos_pi_div_two]
    norm_num [atan2]
  · intro h
    have := congrArg Coordinate.lng h
    norm_num at this

/-- C5 (amended): the haversine `calculateDistance` is a pure function,
symmetric in its two coordinates, and zero on equal coordinates (but NOT
only on equal coordinates, see the counterexample). -/
theorem distance_symm_and_self_zero :
    (∀ lat1 lon1 lat2 lon2 : ℝ,
      calculateDistance lat1 lon1 lat2 lon2 =
        calculateDistance lat2 lon2 lat1 lon1) ∧
    (∀ lat lon : ℝ, calculateDistance lat lon lat lon = 0) :=
  ⟨calculateDistance_symm, calculateDistance_self⟩

/-! ## Distance accumulation -/

lemma accumulateDistance_some (l : List Coordinate) :
    ∀ (q : Coordinate) (t : ℝ),
      accumulateDistance (some q) t l =
        t + pairwiseHaversineSum (q :: l) / 1000 := by
  induction l with
  | nil => intro q t; simp [accumulateDistance, pairwiseHaversineSum]
  | cons p rest ih =>
    intro q t
    rw [show accumulateDistance (some q) t (p :: rest) =
        accumulateDistance (some p)
          (t + calculateDistance q.lat q.lng p.lat p.lng / 1000) rest from rfl,
      ih p, show pairwiseHaversineSum (q :: p :: rest) =
        calculateDistance q.lat q.lng p.lat p.lng +
          pairwiseHaversineSum (p :: rest) from rfl]
    ring

lemma totalDistanceAfter_eq (samples : List Coordinate) :
    totalDistanceAfter samples * 1000 = pairwiseHaversineSum samples := by
  cases samples with
  | nil => simp [totalDistanceAfter, accumulateDistance, pairwiseHaversineSum]
  | cons p rest =>
    unfold totalDistanceAfter
    rw [show accumulateDistance none 0 (p :: rest) =
        accumulateDistance (some p) 0 rest from rfl,
      accumulateDistance_some rest p 0]
    ring

lemma pairwiseHaversineSum_snoc (l : List Coordinate) (p : Coordinate) :
    pairwiseHaversineSum l ≤ pairwiseHaversineSum (l ++ [p]) := by
  induction l with
  | nil => simp [pairwiseHaversineSum]
  | cons q rest ih =>
    cases rest with
    | nil =>
      have h := calculateDistance_nonneg q.lat q.lng p.lat p.lng
      simp only [List.nil_append, List.cons_append, pairwiseHaversineSum]
      linarith
    | cons r rest' =>
      simp only [List.cons_append, List.append_eq, pairwiseHaversineSum]
        at ih ⊢
      linarith

/-- C6: after any run of accepted position samples the tracker's accumulated
traveled distance, expressed in metres (the accumulator itself is kept in
kilometres), equals the sum of the pairwise haversine distances between
consecutive samples, and it never decreases when a further sample arrives. -/
theorem tracker_distance_sum_monotone (samples : List Coordinate)
    (p : Coordinate) :
    totalDistanceAfter samples * 1000 = pairwiseHaversineSum samples ∧
    totalDistanceAfter samples ≤ totalDistanceAfter (samples ++ [p]) := by
  refine ⟨totalDistanceAfter_eq samples, ?_⟩
  have h1 := totalDistanceAfter_eq samples
  have h2 := totalDistanceAfter_eq (samples ++ [p])
  have h3 := pairwiseHaversineSum_snoc samples p
  linarith

/-! ## Lower bound for the haversine distance (used for the §8 scenario) -/

lemma arctan_nonneg {x : ℝ} (hx : 0 ≤ x) : 0 ≤ Real.arctan x :=
  le_trans (le_of_eq Real.arctan_zero.symm)
    (Real.arctan_strictMono.monotone hx)

/-- When the latitude cosines have a nonnegative product, the haversine
distance is at least `2 R |sin(Δφ/2)|` (with `Δφ` in radians). -/
lemma calculateDistance_ge_sin (lat1 lon1 lat2 lon2 : ℝ)
    (hcos : 0 ≤ Real.cos (lat1 * π / 180) * Real.cos (lat2 * π / 180)) :
    2 * 6371000 * |Real.sin ((lat2 - lat1) * π / 180 / 2)| ≤
      calculateDistance lat1 lon1 lat2 lon2 := by
  set s := Real.sin ((lat2 - lat1) * π / 180 / 2) with hs
  set t := Real.sin ((lon2 - lon1) * π / 180 / 2) with ht
  set c1 := Real.cos (lat1 * π / 180) with hc1
  set c2 := Real.cos (lat2 * π / 180) with hc2
  set A := s * s + c1 * c2 * t * t with hAdef
  have hA1 : s * s ≤ A := by nlinarith [mul_nonneg hcos (mul_self_nonneg t)]
  have hA0 : 0 ≤ A := le_trans (mul_self_nonneg s) hA1
  have habs : |s| ≤ Real.sqrt A := by
    rw [← Real.sqrt_mul_self_eq_abs]
    exact Real.sqrt_le_sqrt hA1
  have key : |s| ≤ atan2 (Real.sqrt A) (Real.sqrt (1 - A)) := by
    by_cases hA : A < 1
    · have h1A : (0 : ℝ) < 1 - A := by linarith
      have hxpos : 0 < Real.sqrt (1 - A) := Real.sqrt_pos.mpr h1A
      rw [atan2, if_pos hxpos]
      set x := Real.sqrt A / Real.sqrt (1 - A) with hx
      have hx0 : 0 ≤ x := div_nonneg (Real.sqrt_nonneg _) (Real.sqrt_nonneg _)
      have hsq : 1 + x ^ 2 = (1 - A)⁻¹ := by
        rw [hx, div_pow, Real.sq_sqrt hA0, Real.sq_sqrt h1A.le]
        field_simp
      have hsin : Real.sin (Real.arctan x) = Real.sqrt A := by
        rw [Real.sin_arctan, hsq, Real.sqrt_inv]
        rw [hx]
        field_simp
      have : Real.sqrt A ≤ Real.arctan x := by
        rw [← hsin]
        exact Real.sin_le (arctan_nonneg hx0)
      linarith
    · have h1A : 1 - A ≤ 0 := by linarith
      rw [atan2, Real.sqrt_eq_zero'.mpr h1A]
      have hApos : 0 < Real.sqrt A :=
        Real.sqrt_pos.mpr (by linarith)
      rw [if_neg (lt_irrefl 0), if_neg (lt_irrefl 0), if_pos hApos]
      have hsle : |s| ≤ 1 :=
        abs_le.mpr ⟨Real.neg_one_le_sin _, Real.sin_le_one _⟩
      linarith [Real.two_le_pi]
  have : calculateDistance lat1 lon1 lat2 lon2 =
      6371000 * (2 * atan2 (Real.sqrt A) (Real.sqrt (1 - A))) := by
    rw [calculateDistance, hAdef, hs, ht, hc1, hc2]
  rw [this]
  linarith

lemma sin_step4_gt : 25 / 6371000 < Real.sin (π / 427500) := by
  have h0 : 0 < π / 427500 := by positivity
  have hu : π < 3.15 := Real.pi_lt_d2
  have hl : 3.14 < π := Real.pi_gt_d2
  have h1 : π / 427500 ≤ 1 := by nlinarith
  have hc := Real.sin_gt_sub_cube h0 h1
  have hcube : (π / 427500) ^ 3 ≤ (3.15 / 427500) ^ 3 := by
    gcongr
  nlinarith

lemma sin_step8_gt : 25 / 6371000 < Real.sin (π / 213750) := by
  have h0 : 0 < π / 213750 := by positivity
  have hu : π < 3.15 := Real.pi_lt_d2
  have hl : 3.14 < π := Real.pi_gt_d2
  have h1 : π / 213750 ≤ 1 := by nlinarith
  have hc := Real.sin_gt_sub_cube h0 h1
  have hcube : (π / 213750) ^ 3 ≤ (3.15 / 213750) ^ 3 := by
    gcongr
  nlinarith

lemma cos_deg_pos {lat : ℝ} (h0 : 0 ≤ lat) (h1 : lat ≤ 11) :
    0 < Real.cos (lat * π / 180) := by
  apply Real.cos_pos_of_mem_Ioo
  constructor
  · have hp := Real.pi_pos
    nlinarith
  · have hp := Real.pi_pos
    nlinarith

/-! ## Evaluating the §8 scenario -/

lemma scenarioCheckpoints_eq :
    scenarioCheckpoints =
      [ { position := { lat := (scenarioPoint 4).2, lng := (scenarioPoint 4).1 },
          description := "Checkpoint " ++ toString 1, index := 1 },
        { position := { lat := (scenarioPoint 8).2, lng := (scenarioPoint 8).1 },
          description := "Checkpoint " ++ toString 2, index := 2 },
        { position := { lat := (scenarioPoint 12).2, lng := (scenarioPoint 12).1 },
          description := "Checkpoint " ++ toString 3, index := 3 },
        { position := { lat := (scenarioPoint 16).2, lng := (scenarioPoint 16).1 },
          description := "Checkpoint " ++ toString 4, index := 4 } ] := by
  have hlen : scenarioCoords.length = 20 := by simp [scenarioCoords]
  have hget : ∀ k, k < 20 → scenarioCoords[k]? = some (scenarioPoint k) := by
    intro k hk
    rw [List.getElem?_eq_getElem (by rw [hlen]; exact hk)]
    simp [scenarioCoords]
  have hmap := generateCheckpoints_eq_map scenarioCoords 4
    (by rw [hlen]; intro i h1 h2; omega)
  rw [hlen] at hmap
  rw [show scenarioCheckpoints =
      generateCheckpoints ⟨some ⟨some scenarioCoords⟩⟩ 4 from rfl, hmap]
  norm_num [List.range']
  simp [hget 4 (by norm_num), hget 8 (by norm_num), hget 12 (by norm_num),
    hget 16 (by norm_num)]

lemma scenario_lat_bounds (k : ℕ) (hk : k ≤ 20) :
    0 ≤ (scenarioPoint k).2 ∧ (scenarioPoint k).2 ≤ 11 := by
  unfold scenarioPoint
  have hc : (k : ℝ) ≤ 20 := by exact_mod_cast hk
  have hc0 : (0 : ℝ) ≤ (k : ℝ) := Nat.cast_nonneg k
  constructor
  · norm_num
    nlinarith
  · norm_num
    nlinarith

lemma scenario_cos_nonneg (k : ℕ) (hk : k ≤ 20) :
    0 ≤ Real.cos (scenarioPos.lat * π / 180) *
      Real.cos ((scenarioPoint k).2 * π / 180) := by
  have h8 := scenario_lat_bounds 8 (by norm_num)
  have hkk := scenario_lat_bounds k hk
  have hp : scenarioPos.lat = (scenarioPoint 8).2 := rfl
  rw [hp]
  exact le_of_lt (mul_pos (cos_deg_pos h8.1 h8.2) (cos_deg_pos hkk.1 hkk.2))

lemma scenario_arg_cp0 :
    ((scenarioPoint 4).2 - scenarioPos.lat) * π / 180 / 2 = -(π / 427500) := by
  show ((scenarioPoint 4).2 - (scenarioPoint 8).2) * π / 180 / 2 = -(π / 427500)
  unfold scenarioPoint
  push_cast
  ring

lemma scenario_arg_cp2 :
    ((scenarioPoint 12).2 - scenarioPos.lat) * π / 180 / 2 = π / 427500 := by
  show ((scenarioPoint 12).2 - (scenarioPoint 8).2) * π / 180 / 2 = π / 427500
  unfold scenarioPoint
  push_cast
  ring

lemma scenario_arg_cp3 :
    ((scenarioPoint 16).2 - scenarioPos.lat) * π / 180 / 2 = π / 213750 := by
  show ((scenarioPoint 16).2 - (scenarioPoint 8).2) * π / 180 / 2 = π / 213750
  unfold scenarioPoint
  push_cast
  ring

lemma scenario_dist_cp0_gt :
    50 < calculateDistance scenarioPos.lat scenarioPos.lng
      (scenarioPoint 4).2 (scenarioPoint 4).1 := by
  have hsinpos : 0 < Real.sin (π / 427500) :=
    lt_trans (by norm_num) sin_step4_gt
  have hb := calculateDistance_ge_sin scenarioPos.lat scenarioPos.lng
    (scenarioPoint 4).2 (scenarioPoint 4).1 (scenario_cos_nonneg 4 (by norm_num))
  rw [scenario_arg_cp0, Real.sin_neg, abs_neg, abs_of_pos hsinpos] at hb
  linarith [sin_step4_gt]

lemma scenario_dist_cp2_gt :
    50 < calculateDistance scenarioPos.lat scenarioPos.lng
      (scenarioPoint 12).2 (scenarioPoint 12).1 := by
  have hsinpos : 0 < Real.sin (π / 427500) :=
    lt_trans (by norm_num) sin_step4_gt
  have hb := calculateDistance_ge_sin scenarioPos.lat scenarioPos.lng
    (scenarioPoint 12).2 (scenarioPoint 12).1
    (scenario_cos_nonneg 12 (by norm_num))
  rw [scenario_arg_cp2, abs_of_pos hsinpos] at hb
  linarith [sin_step4_gt]

lemma scenario_dist_cp3_gt :
    50 < calculateDistance scenarioPos.lat scenarioPos.lng
      (scenarioPoint 16).2 (scenarioPoint 16).1 := by
  have hsinpos : 0 < Real.sin (π / 213750) :=
    lt_trans (by norm_num) sin_step8_gt
  have hb := calculateDistance_ge_sin scenarioPos.lat scenarioPos.lng
    (scenarioPoint 16).2 (scenarioPoint 16).1
    (scenario_cos_nonneg 16 (by norm_num))
  rw [scenario_arg_cp3, abs_of_pos hsinpos] at hb
  linarith [sin_step8_gt]

lemma scenario_dist_cp1_le :
    calculateDistance scenarioPos.lat scenarioPos.lng
      (scenarioPoint 8).2 (scenarioPoint 8).1 ≤ 50 := by
  have h : calculateDistance scenarioPos.lat scenarioPos.lng
      (scenarioPoint 8).2 (scenarioPoint 8).1 = 0 :=
    calculateDistance_self (scenarioPoint 8).2 (scenarioPoint 8).1
  rw [h]
  norm_num

lemma checkpointEventsFrom_nil (pos : Coordinate) (index : ℕ)
    (completed : List ℕ) :
    checkpointEventsFrom pos [] index completed = [] := rfl

lemma checkpointEventsFrom_cons_far (pos : Coordinate) (cp : Checkpoint)
    (rest : List Checkpoint) (index : ℕ) (completed : List ℕ)
    (hmem : index ∉ completed)
    (hd : ¬(calculateDistance pos.lat pos.lng cp.position.lat
      cp.position.lng ≤ 50)) :
    checkpointEventsFrom pos (cp :: rest) index completed =
      checkpointEventsFrom pos rest (index + 1) completed := by
  simp only [checkpointEventsFrom]
  rw [if_neg hmem, if_neg hd]

lemma checkpointEventsFrom_cons_near (pos : Coordinate) (cp : Checkpoint)
    (rest : List Checkpoint) (index : ℕ) (completed : List ℕ)
    (hmem : index ∉ completed)
    (hd : calculateDistance pos.lat pos.lng cp.position.lat
      cp.position.lng ≤ 50) :
    checkpointEventsFrom pos (cp :: rest) index completed =
      index :: checkpointEventsFrom pos rest (index + 1) completed := by
  simp only [checkpointEventsFrom]
  rw [if_neg hmem, if_pos hd]

lemma scenarioEvents_eq :
    checkpointEvents scenarioPos scenarioCheckpoints [] = [1] := by
  rw [scenarioCheckpoints_eq]
  unfold checkpointEvents
  rw [checkpointEventsFrom_cons_far _ _ _ _ _ (by simp)
      (by exact not_le.mpr scenario_dist_cp0_gt),
    checkpointEventsFrom_cons_near _ _ _ _ _ (by simp)
      (by exact scenario_dist_cp1_le),
    checkpointEventsFrom_cons_far _ _ _ _ _ (by simp)
      (by exact not_le.mpr scenario_dist_cp2_gt),
    checkpointEventsFrom_cons_far _ _ _ _ _ (by simp)
      (by exact not_le.mpr scenario_dist_cp3_gt),
    checkpointEventsFrom_nil]

lemma scenarioCheckpoints_length : scenarioCheckpoints.length = 4 := by
  rw [scenarioCheckpoints_eq]
  rfl

lemma scenarioStory_length : scenarioStory.chapters.length = 5 := by
  unfold scenarioStory generateFallbackStory
  simp only
  rw [length_filterMap_range_if]
  simp only [List.length_append, List.length_map, List.length_cons,
    List.length_nil, scenarioCheckpoints_length]
  omega

/-- C8: in the 20-point scenario (`n = 4`, checkpoints at point indices 4, 8,
12, 16), a sample at point index 8's coordinate triggers exactly one
checkpoint-reached event, namely for the checkpoint whose 1-based `index` is
2 (0-based position 1 in the list), and feeding that event stream to the
sequencer makes the third chapter active (0-based chapter index 2). -/
theorem endToEnd_scenario :
    scenarioCheckpoints.map Checkpoint.index = [1, 2, 3, 4] ∧
    checkpointEvents scenarioPos scenarioCheckpoints [] = [1] ∧
    (scenarioCheckpoints.map Checkpoint.index).getD 1 0 = 2 ∧
    ((checkpointEvents scenarioPos scenarioCheckpoints []).foldl
        (handleCheckpointReached (some scenarioStory))
        { completedCheckpoints := [], currentChapter := 0 }).currentChapter =
      2 := by
  have hidx : scenarioCheckpoints.map Checkpoint.index = [1, 2, 3, 4] := by
    rw [scenarioCheckpoints_eq]
    rfl
  refine ⟨hidx, scenarioEvents_eq, by rw [hidx]; rfl, ?_⟩
  rw [scenarioEvents_eq]
  simp only [List.foldl]
  simp [handleCheckpointReached, scenarioStory_length]

end Wanderer
